import Mathlib

/-!
Verification of the theme-discovery pipeline of the App-Review-Insights-Analyser
repository: a shallow embedding of the Layer-2 components
(`src/layer2_themes/embeddings.py`, `clustering.py`, `theme_labeler.py`,
`theme_enforcer.py`) together with proofs of the specification's claims
about them.

DataFrames are modelled as lists of typed rows; pandas `NaN` entries in the
`theme_name` column are modelled as `Option.none`; Python dicts are modelled
as association lists (insertion order preserved, lookup finds the unique
binding); review membership strengths (floats used only for ordering) are
modelled as rationals.
-/

set_option maxHeartbeats 1000000

/-- `config.MAX_THEMES` from `config.py`. -/
def MAX_THEMES : Nat := 5

/-- `config.THEME_CATEGORIES` from `config.py`. -/
def THEME_CATEGORIES : List String :=
  ["Features & Functionality",
   "App Updates & Performance",
   "Transactions & Payments",
   "Customer Service & Support",
   "Product Marketing & Communication"]

/-- A cleaned review row as consumed by Layer 2 (only the text content is
relevant to the claims). -/
structure ReviewRow where
  content : String
deriving DecidableEq, Repr

/-- A review row after `HDBSCANClustering.assign_to_dataframe`: the original
content plus the `cluster_label` and `cluster_probability` columns. -/
structure ClusteredRow where
  content : String
  cluster_label : Int
  cluster_probability : ℚ
deriving DecidableEq, Repr

/-- A review row after `ThemeLabeler.assign_themes_to_dataframe`: a clustered
row plus the `theme_name` column (`none` models a pandas `NaN` produced by
`Series.map` on a key absent from the dict). -/
structure ThemedRow where
  content : String
  cluster_label : Int
  cluster_probability : ℚ
  theme_name : Option String
deriving DecidableEq, Repr

/-- Lookup in an association list modelling a Python dict (also the
semantics of `pandas.Series.map(dict)`: `none` models the `NaN` produced
for a missing key). -/
def dict_get [BEq α] (a : α) : List (α × β) → Option β
  | [] => none
  | (k, v) :: l => if a == k then some v else dict_get a l

/-- First-occurrence deduplication (the order `pandas.Series.unique` and
`dict` key iteration use), written with an accumulator so that it is
structurally recursive. -/
def dedupFirstAux [DecidableEq α] (seen : List α) : List α → List α
  | [] => []
  | a :: l => if a ∈ seen then dedupFirstAux seen l else a :: dedupFirstAux (a :: seen) l

/-- First-occurrence deduplication of a list. -/
def dedupFirst [DecidableEq α] (l : List α) : List α := dedupFirstAux [] l

/-- Descending order on `(theme, review_count)` pairs: the comparison
`sorted(theme_sizes.items(), key=lambda x: x[1], reverse=True)` sorts by. -/
def sizeGE (a b : String × Nat) : Prop := b.2 ≤ a.2

instance : DecidableRel sizeGE := fun a b => inferInstanceAs (Decidable (b.2 ≤ a.2))

instance : IsTotal (String × Nat) sizeGE := ⟨fun a b => le_total b.2 a.2⟩

instance : IsTrans (String × Nat) sizeGE := ⟨fun _ _ _ h h' => le_trans h' h⟩

/-- Descending order on rows by `cluster_probability`: the order
`sort_values('cluster_probability', ascending=False)` sorts by. -/
def probGE (a b : ClusteredRow) : Prop := b.cluster_probability ≤ a.cluster_probability

instance : DecidableRel probGE :=
  fun a b => inferInstanceAs (Decidable (b.cluster_probability ≤ a.cluster_probability))

instance : IsTotal ClusteredRow probGE := ⟨fun a b => le_total b.cluster_probability a.cluster_probability⟩

instance : IsTrans ClusteredRow probGE := ⟨fun _ _ _ h h' => le_trans h' h⟩

/-! ## Embedding generator (`embeddings.py`)

`EmbeddingGenerator.generate_embeddings` forwards the text list directly to
`SentenceTransformer.encode`; its body contains no validation and no `raise`
statement, so the embedding is a total pass-through of the external encoder.
The `Except` result type records whether any error is raised: the function
always returns `Except.ok`. -/

/-- `EmbeddingGenerator.generate_embeddings`: delegates to the external
encoder (`self.model.encode`) with no input validation; never raises. -/
def generate_embeddings (encode : List String → List (List ℚ)) (texts : List String) :
    Except String (List (List ℚ)) :=
  Except.ok (encode texts)

/-! ## Clustering assignment (`clustering.py`) -/

/-- `HDBSCANClustering.assign_to_dataframe`: attaches the fitted labels and
probabilities column-wise (positionally) to a copy of the DataFrame. pandas
raises unless the array lengths equal the row count, so claims about this
function carry the corresponding length hypotheses. -/
def assign_to_dataframe (df : List ReviewRow) (labels : List Int) (probs : List ℚ) :
    List ClusteredRow :=
  (df.zip (labels.zip probs)).map fun rp => ⟨rp.1.content, rp.2.1, rp.2.2⟩

/-- The `cluster_label` column of a clustered DataFrame. -/
def clusterLabels (df : List ClusteredRow) : List Int := df.map (·.cluster_label)

/-! ## Theme labeler (`theme_labeler.py`) -/

/-- `config.THEME_LABELING_PROMPT` with the `categories` and `reviews`
slots substituted (as `PromptTemplate.format` produces it). -/
def theme_labeling_prompt (categories reviews : String) : String :=
  "\nYou are analyzing customer reviews for a financial app called IND Money.\nBelow are sample reviews from a cluster. Generate a concise, human-readable theme name (2-4 words) that captures the main topic.\n\nSuggested categories: " ++ categories ++ "\n\nReviews:\n" ++ reviews ++ "\n\nTheme name:\n"

/-- The prompt `ThemeLabeler.label_cluster` builds: at most 10 sample
reviews, each truncated to its first 200 characters and bulleted, substituted
into the labeling template together with the category vocabulary
(`suggested_categories or config.THEME_CATEGORIES`; Python `or` also replaces
an empty list by the default). -/
def label_prompt (sample_reviews : List String) (suggested_categories : Option (List String)) :
    String :=
  let categories :=
    match suggested_categories with
    | none => THEME_CATEGORIES
    | some [] => THEME_CATEGORIES
    | some cs => cs
  let reviews_text :=
    String.intercalate "\n" ((sample_reviews.take 10).map (fun r => "- " ++ r.take 200))
  theme_labeling_prompt (String.intercalate ", " categories) reviews_text

/-- `ThemeLabeler.label_cluster`: builds the prompt, invokes the
text-generation collaborator (`self.llm.invoke`), and post-processes the
response (strip, keep the first line). Any collaborator error is caught and
replaced by the fixed fallback label. -/
def label_cluster (sample_reviews : List String) (suggested_categories : Option (List String))
    (collab : String → Except String String) : String :=
  match collab (label_prompt sample_reviews suggested_categories) with
  | Except.error _ => "Uncategorized > General"
  | Except.ok resp =>
      let theme_label := resp.trim
      if theme_label.contains '\n' then (theme_label.splitOn "\n").headD "" else theme_label

/-- The cluster ids the labeling loop runs over:
`sorted(df[df.cluster_label != -1].cluster_label.unique())`. -/
def nonNoiseIds (df : List ClusteredRow) : List Int :=
  List.insertionSort (fun a b : Int => a ≤ b)
    (dedupFirst ((df.filter (fun r => r.cluster_label != -1)).map (·.cluster_label)))

/-- The sample the loop body draws for one cluster: the cluster's rows
sorted by `cluster_probability` descending, first `n_samples` contents
(`cluster_df.sort_values('cluster_probability', ascending=False)[content_column].head(n_samples).tolist()`). -/
def cluster_sample (df : List ClusteredRow) (id : Int) (n_samples : Nat) : List String :=
  ((List.insertionSort probGE (df.filter (fun r => r.cluster_label == id))).take
    n_samples).map (·.content)

/-- `ThemeLabeler.label_all_clusters`, instrumented: returns both the
cluster→theme dict it builds and the log of collaborator inputs — one
`(cluster_id, sample_reviews)` entry per `label_cluster` call the loop makes.
The loop runs over the sorted non-noise cluster ids; finally
`-1 ↦ "Miscellaneous"` is added when noise is present. -/
def label_all_clusters (df : List ClusteredRow) (n_samples : Nat)
    (collab : String → Except String String) :
    List (Int × String) × List (Int × List String) :=
  let entries := (nonNoiseIds df).map (fun id =>
    ((id, label_cluster (cluster_sample df id n_samples) none collab),
     (id, cluster_sample df id n_samples)))
  let base := entries.map (·.1)
  let cluster_themes := if (-1 : Int) ∈ clusterLabels df then base ++ [(-1, "Miscellaneous")] else base
  (cluster_themes, entries.map (·.2))

/-- `ThemeLabeler.assign_themes_to_dataframe`: adds the `theme_name` column
as `df.cluster_label.map(cluster_themes)` (pandas yields `NaN`, here `none`,
for labels absent from the dict). -/
def assign_themes_to_dataframe (df : List ClusteredRow) (cluster_themes : List (Int × String)) :
    List ThemedRow :=
  df.map fun r =>
    ⟨r.content, r.cluster_label, r.cluster_probability, dict_get r.cluster_label cluster_themes⟩

/-! ## Theme enforcer (`theme_enforcer.py`) -/

/-- The number of distinct theme names in a cluster→theme mapping excluding
the miscellaneous sentinel:
`len(set(t for t in cluster_themes.values() if t != "Miscellaneous"))`. -/
def distinct_non_misc (cluster_themes : List (Int × String)) : Nat :=
  (((cluster_themes.map Prod.snd).filter (fun t => t != "Miscellaneous")).toFinset).card

/-- `ThemeEnforcer._get_theme_sizes`: `df['theme_name'].value_counts()` as a
dict — each distinct (non-null) theme name with its row count, in descending
count order. -/
def get_theme_sizes (df : List ThemedRow) : List (String × Nat) :=
  let names := df.filterMap (·.theme_name)
  List.insertionSort sizeGE ((dedupFirst names).map (fun t => (t, names.count t)))

/-- The keep-set of `ThemeEnforcer._merge_themes`: the names of the top
`max_themes - 1` themes of `theme_sizes` sorted by review count descending. -/
def keep_set (max_themes : Nat) (theme_sizes : List (String × Nat)) : List String :=
  ((List.insertionSort sizeGE theme_sizes).take (max_themes - 1)).map Prod.fst

/-- `ThemeEnforcer._merge_themes`: every cluster whose theme is in the
keep-set or is the miscellaneous sentinel keeps its theme; every other
cluster is remapped to `"Other Issues"`. -/
def merge_themes (max_themes : Nat) (cluster_themes : List (Int × String))
    (theme_sizes : List (String × Nat)) : List (Int × String) :=
  let keep_themes := keep_set max_themes theme_sizes
  cluster_themes.map (fun p =>
    if p.2 ∈ keep_themes ∨ p.2 = "Miscellaneous" then p else (p.1, "Other Issues"))

/-- `ThemeEnforcer._update_dataframe_themes`: rewrites the `theme_name`
column as `df.cluster_label.map(merged_themes)`. -/
def update_dataframe_themes (df : List ThemedRow) (merged_themes : List (Int × String)) :
    List ThemedRow :=
  df.map fun r => { r with theme_name := dict_get r.cluster_label merged_themes }

/-- `ThemeEnforcer.enforce_theme_limit`: if the distinct non-miscellaneous
theme count is within `max_themes`, return the input unchanged; otherwise
merge via `_merge_themes` (sizes from `_get_theme_sizes`) and rewrite the
DataFrame. -/
def enforce_theme_limit (max_themes : Nat) (df : List ThemedRow)
    (cluster_themes : List (Int × String)) : List ThemedRow × List (Int × String) :=
  if distinct_non_misc cluster_themes ≤ max_themes then (df, cluster_themes)
  else
    let merged_themes := merge_themes max_themes cluster_themes (get_theme_sizes df)
    (update_dataframe_themes df merged_themes, merged_themes)

/-- The number of distinct non-null, non-miscellaneous theme names present in
a themed DataFrame. -/
def df_distinct_non_misc (df : List ThemedRow) : Nat :=
  (((df.filterMap (·.theme_name)).filter (fun t => t != "Miscellaneous")).toFinset).card

/-! ## Basic lemmas about the helper functions -/

theorem mem_of_mem_dedupFirstAux [DecidableEq α] {seen l : List α} {a : α}
    (h : a ∈ dedupFirstAux seen l) : a ∈ l := by
  induction l generalizing seen with
  | nil => simp [dedupFirstAux] at h
  | cons b l ih =>
      rw [dedupFirstAux] at h
      by_cases hb : b ∈ seen
      · rw [if_pos hb] at h
        exact List.mem_cons_of_mem _ (ih h)
      · rw [if_neg hb] at h
        rcases List.mem_cons.mp h with rfl | h'
        · exact List.mem_cons_self _ _
        · exact List.mem_cons_of_mem _ (ih h')

theorem mem_dedupFirstAux_of_mem [DecidableEq α] {seen l : List α} {a : α}
    (hl : a ∈ l) (hs : a ∉ seen) : a ∈ dedupFirstAux seen l := by
  induction l generalizing seen with
  | nil => cases hl
  | cons b l ih =>
      rw [dedupFirstAux]
      by_cases hb : b ∈ seen
      · rw [if_pos hb]
        rcases List.mem_cons.mp hl with rfl | h'
        · exact absurd hb hs
        · exact ih h' hs
      · rw [if_neg hb]
        rcases List.mem_cons.mp hl with rfl | h'
        · exact List.mem_cons_self _ _
        · by_cases hab : a = b
          · subst hab; exact List.mem_cons_self _ _
          · exact List.mem_cons_of_mem _ (ih h' (by simp [List.mem_cons, hab, hs]))

theorem mem_of_mem_dedupFirst [DecidableEq α] {l : List α} {a : α}
    (h : a ∈ dedupFirst l) : a ∈ l := mem_of_mem_dedupFirstAux h

theorem mem_dedupFirst_of_mem [DecidableEq α] {l : List α} {a : α}
    (h : a ∈ l) : a ∈ dedupFirst l := mem_dedupFirstAux_of_mem h (List.not_mem_nil a)

theorem dict_get_some_mem [BEq α] [LawfulBEq α] {a : α} {b : β} {l : List (α × β)}
    (h : dict_get a l = some b) : (a, b) ∈ l := by
  induction l with
  | nil => simp [dict_get] at h
  | cons p l ih =>
      obtain ⟨k, v⟩ := p
      rw [dict_get] at h
      by_cases hk : a == k
      · rw [if_pos hk] at h
        obtain rfl := Option.some.inj h
        obtain rfl := eq_of_beq hk
        exact List.mem_cons_self _ _
      · rw [if_neg hk] at h
        exact List.mem_cons_of_mem _ (ih h)

theorem dict_get_isSome_of_mem_keys [BEq α] [LawfulBEq α] {a : α} {l : List (α × β)}
    (h : a ∈ l.map Prod.fst) : (dict_get a l).isSome := by
  induction l with
  | nil => simp at h
  | cons p l ih =>
      obtain ⟨k, v⟩ := p
      have h' : a = k ∨ a ∈ l.map Prod.fst := by simpa using h
      rw [dict_get]
      rcases h' with rfl | h'
      · simp
      · by_cases hk : a == k
        · rw [if_pos hk]; rfl
        · rw [if_neg hk]; exact ih h'

theorem dict_get_append_of_not_mem_keys [BEq α] [LawfulBEq α] {a : α} {l1 l2 : List (α × β)}
    (h : a ∉ l1.map Prod.fst) : dict_get a (l1 ++ l2) = dict_get a l2 := by
  induction l1 with
  | nil => rfl
  | cons p l ih =>
      obtain ⟨k, v⟩ := p
      have h1 : a ≠ k ∧ a ∉ l.map Prod.fst := by simpa [not_or] using h
      rw [List.cons_append, dict_get]
      have hk : ¬(a == k) = true := fun hbeq => h1.1 (eq_of_beq hbeq)
      rw [if_neg hk]
      exact ih h1.2

/-! ## Lemmas about the theme enforcer -/

/-- Every theme name appearing in the output of `_merge_themes` is a kept
name, the miscellaneous sentinel, or the catch-all label. -/
theorem mem_values_merge_themes {M : Nat} {ct : List (Int × String)}
    {sizes : List (String × Nat)} {t : String}
    (h : t ∈ (merge_themes M ct sizes).map Prod.snd) :
    t ∈ keep_set M sizes ∨ t = "Miscellaneous" ∨ t = "Other Issues" := by
  simp only [merge_themes, List.map_map, List.mem_map, Function.comp] at h
  obtain ⟨p, hp, ht⟩ := h
  by_cases hc : p.2 ∈ keep_set M sizes ∨ p.2 = "Miscellaneous"
  · rw [if_pos hc] at ht
    subst ht
    rcases hc with hk | hm
    · exact Or.inl hk
    · exact Or.inr (Or.inl hm)
  · rw [if_neg hc] at ht
    exact Or.inr (Or.inr ht.symm)

theorem keep_set_length_le (M : Nat) (sizes : List (String × Nat)) :
    (keep_set M sizes).length ≤ M - 1 := by
  simp only [keep_set, List.length_map, List.length_take]
  exact min_le_left _ _

/-- Monotonicity of the distinct-count of non-`m` names under list inclusion. -/
theorem card_filter_ne_le_of_subset {l1 l2 : List String} {m : String}
    (h : ∀ t ∈ l1, t ∈ l2) :
    ((l1.filter (fun t => t != m)).toFinset).card ≤
      ((l2.filter (fun t => t != m)).toFinset).card := by
  apply Finset.card_le_card
  intro t ht
  rw [List.mem_toFinset, List.mem_filter] at ht ⊢
  exact ⟨h t ht.1, ht.2⟩

theorem distinct_non_misc_merge_le {M : Nat} (hM : 1 ≤ M) (ct : List (Int × String))
    (sizes : List (String × Nat)) :
    distinct_non_misc (merge_themes M ct sizes) ≤ M := by
  unfold distinct_non_misc
  have hsub : (((merge_themes M ct sizes).map Prod.snd).filter
      (fun t => t != "Miscellaneous")).toFinset ⊆
      insert "Other Issues" (keep_set M sizes).toFinset := by
    intro t ht
    rw [List.mem_toFinset, List.mem_filter] at ht
    obtain ⟨hmem, hne⟩ := ht
    rcases mem_values_merge_themes hmem with hk | hm | ho
    · exact Finset.mem_insert_of_mem (List.mem_toFinset.mpr hk)
    · exact absurd hm (by simpa using hne)
    · exact Finset.mem_insert.mpr (Or.inl ho)
  calc (((merge_themes M ct sizes).map Prod.snd).filter
        (fun t => t != "Miscellaneous")).toFinset.card
      ≤ (insert "Other Issues" (keep_set M sizes).toFinset).card := Finset.card_le_card hsub
    _ ≤ (keep_set M sizes).toFinset.card + 1 := Finset.card_insert_le _ _
    _ ≤ (keep_set M sizes).length + 1 := by
        exact Nat.add_le_add_right (List.toFinset_card_le _) 1
    _ ≤ (M - 1) + 1 := Nat.add_le_add_right (keep_set_length_le M sizes) 1
    _ = M := by omega

/-- After enforcement the returned mapping always has at most `max_themes`
distinct non-miscellaneous theme names. -/
theorem enforce_snd_bound {M : Nat} (hM : 1 ≤ M) (df : List ThemedRow)
    (ct : List (Int × String)) :
    distinct_non_misc (enforce_theme_limit M df ct).2 ≤ M := by
  unfold enforce_theme_limit
  by_cases h : distinct_non_misc ct ≤ M
  · rw [if_pos h]; exact h
  · rw [if_neg h]
    exact distinct_non_misc_merge_le hM ct (get_theme_sizes df)

/-- Theme names of a DataFrame rewritten through a mapping are values of
that mapping. -/
theorem mem_values_of_mem_update {df : List ThemedRow} {merged : List (Int × String)}
    {t : String} (h : t ∈ (update_dataframe_themes df merged).filterMap (·.theme_name)) :
    t ∈ merged.map Prod.snd := by
  simp only [update_dataframe_themes, List.filterMap_map, List.mem_filterMap,
    Function.comp] at h
  obtain ⟨r, _, ht⟩ := h
  exact List.mem_map.mpr ⟨(r.cluster_label, t), dict_get_some_mem ht, rfl⟩

/-- The no-op branch of `enforce_theme_limit`: when the distinct
non-miscellaneous theme count is within the limit, the input is returned
unchanged. -/
theorem enforce_eq_of_le {M : Nat} {df : List ThemedRow} {ct : List (Int × String)}
    (h : distinct_non_misc ct ≤ M) : enforce_theme_limit M df ct = (df, ct) := by
  unfold enforce_theme_limit
  rw [if_pos h]

/-- The merge branch of `enforce_theme_limit`: when the distinct
non-miscellaneous theme count exceeds the limit, the returned mapping keeps
every theme in the keep-set or equal to the miscellaneous sentinel and
remaps all others to the catch-all label. -/
theorem enforce_snd_of_lt {M : Nat} {df : List ThemedRow} {ct : List (Int × String)}
    (h : M < distinct_non_misc ct) :
    (enforce_theme_limit M df ct).2 = ct.map (fun p =>
      if p.2 ∈ keep_set M (get_theme_sizes df) ∨ p.2 = "Miscellaneous" then p
      else (p.1, "Other Issues")) := by
  unfold enforce_theme_limit
  rw [if_neg (not_le.mpr h)]
  rfl

/-! ## Concrete inputs for counterexamples and witnesses -/

/-- A themed DataFrame with six distinct ordinary theme names. -/
def dfC1 : List ThemedRow :=
  [⟨"r0", 0, 1, some "A"⟩, ⟨"r1", 1, 1, some "B"⟩, ⟨"r2", 2, 1, some "C"⟩,
   ⟨"r3", 3, 1, some "D"⟩, ⟨"r4", 4, 1, some "E"⟩, ⟨"r5", 5, 1, some "F"⟩]

def dfW1 : List ThemedRow := [⟨"great app", 0, 1, some "A"⟩, ⟨"keeps crashing", 1, 1, some "B"⟩]

def ctW1 : List (Int × String) := [(0, "A"), (1, "B")]

/-- `n` identical themed rows for one cluster. -/
def mkThemedRows (n : Nat) (lab : Int) (t : String) : List ThemedRow :=
  List.replicate n ⟨t, lab, 1, some t⟩

/-- Seven themes with review counts `[50, 40, 30, 20, 10, 5, 3]`. -/
def dfC2 : List ThemedRow :=
  mkThemedRows 50 0 "A" ++ mkThemedRows 40 1 "B" ++ mkThemedRows 30 2 "C" ++
  mkThemedRows 20 3 "D" ++ mkThemedRows 10 4 "E" ++ mkThemedRows 5 5 "F" ++
  mkThemedRows 3 6 "G"

def ctC2 : List (Int × String) :=
  [(0, "A"), (1, "B"), (2, "C"), (3, "D"), (4, "E"), (5, "F"), (6, "G")]

/-- The number of distinct theme labels in a mapping, sentinels included. -/
def distinct_all (ct : List (Int × String)) : Nat := ((ct.map Prod.snd).toFinset).card

/-- The number of distinct ordinary theme names in a mapping: distinct
values other than the miscellaneous sentinel and the catch-all label. -/
def distinct_ordinary (ct : List (Int × String)) : Nat :=
  (((ct.map Prod.snd).filter
    (fun t => t != "Miscellaneous" && t != "Other Issues")).toFinset).card

def dfC3 : List ThemedRow :=
  [⟨"r0", 0, 1, some "A"⟩, ⟨"r1", 1, 1, some "B"⟩, ⟨"r2", 2, 1, some "C"⟩,
   ⟨"r3", 3, 1, some "D"⟩, ⟨"r4", 4, 1, some "E"⟩]

def ctC3 : List (Int × String) := [(0, "A"), (1, "B"), (2, "C"), (3, "D"), (4, "E")]

def dfW3 : List ThemedRow := dfC1 ++ [⟨"r6", 6, 1, some "Miscellaneous"⟩]

def ctW3 : List (Int × String) :=
  [(0, "A"), (1, "B"), (2, "C"), (3, "D"), (4, "E"), (5, "F"), (6, "Miscellaneous")]

def dfW7 : List ThemedRow :=
  mkThemedRows 9 0 "A" ++ mkThemedRows 7 1 "B" ++ mkThemedRows 6 2 "C" ++
  mkThemedRows 4 3 "D" ++ mkThemedRows 3 4 "E" ++ mkThemedRows 2 5 "F" ++
  mkThemedRows 1 6 "G"

def ctW7 : List (Int × String) :=
  [(0, "A"), (1, "B"), (2, "C"), (3, "D"), (4, "E"), (5, "F"), (6, "G")]

/-! ## Claim C1 -/

/-- C1, as stated, is false for the DataFrame part: when the cluster→theme
mapping is within the limit the enforcer returns the DataFrame unchanged,
even if that DataFrame contains more than `MAX_THEMES` distinct
non-miscellaneous theme names (here six names against an empty mapping). -/
theorem C1_counterexample :
    ¬ (df_distinct_non_misc (enforce_theme_limit MAX_THEMES dfC1 []).1 ≤ MAX_THEMES) := by
  decide

/-- C1 (amended): for every `max_themes ≥ 1`, every DataFrame and every
cluster→theme mapping, the mapping returned by `enforce_theme_limit` has at
most `max_themes` distinct non-miscellaneous theme names; and provided each
row's `theme_name` is the mapping's value at its `cluster_label` (as
`assign_themes_to_dataframe` produces it), the returned DataFrame satisfies
the same bound. -/
theorem C1_cardinality_bound (M : Nat) (df : List ThemedRow) (ct : List (Int × String))
    (hM : 1 ≤ M) (hdf : ∀ r ∈ df, r.theme_name = dict_get r.cluster_label ct) :
    distinct_non_misc (enforce_theme_limit M df ct).2 ≤ M ∧
    df_distinct_non_misc (enforce_theme_limit M df ct).1 ≤ M := by
  refine ⟨enforce_snd_bound hM df ct, ?_⟩
  unfold enforce_theme_limit
  by_cases h : distinct_non_misc ct ≤ M
  · rw [if_pos h]
    have hsub : ∀ t ∈ df.filterMap (·.theme_name), t ∈ ct.map Prod.snd := by
      intro t ht
      rw [List.mem_filterMap] at ht
      obtain ⟨r, hr, hrt⟩ := ht
      rw [hdf r hr] at hrt
      exact List.mem_map.mpr ⟨(r.cluster_label, t), dict_get_some_mem hrt, rfl⟩
    exact le_trans (card_filter_ne_le_of_subset hsub) h
  · rw [if_neg h]
    refine le_trans (card_filter_ne_le_of_subset
      (fun t ht => mem_values_of_mem_update ht)) ?_
    exact distinct_non_misc_merge_le hM ct (get_theme_sizes df)

theorem C1_cardinality_bound_witness :
    distinct_non_misc (enforce_theme_limit MAX_THEMES dfW1 ctW1).2 ≤ MAX_THEMES ∧
    df_distinct_non_misc (enforce_theme_limit MAX_THEMES dfW1 ctW1).1 ≤ MAX_THEMES :=
  C1_cardinality_bound MAX_THEMES dfW1 ctW1 (by decide) (by decide)

/-! ## Claim C2 -/

/-- C2: the enforcer's algorithm — a no-op (identity on both arguments)
when the distinct non-miscellaneous theme count is within `max_themes`,
otherwise a remap that keeps the names of the top `max_themes − 1` themes
by descending review count (and the miscellaneous sentinel) and sends every
other theme to the catch-all `"Other Issues"`; on 7 themes with review
counts `[50, 40, 30, 20, 10, 5, 3]` and `MAX_THEMES = 5`, the top 4 themes
keep their names, the other 3 are remapped, the output has exactly 5
distinct labels and no miscellaneous sentinel. -/
theorem C2_merge_algorithm :
    (∀ (M : Nat) (df : List ThemedRow) (ct : List (Int × String)), 1 ≤ M →
      (distinct_non_misc ct ≤ M → enforce_theme_limit M df ct = (df, ct)) ∧
      (M < distinct_non_misc ct →
        (enforce_theme_limit M df ct).2 = ct.map (fun p =>
          if p.2 ∈ keep_set M (get_theme_sizes df) ∨ p.2 = "Miscellaneous" then p
          else (p.1, "Other Issues")))) ∧
    ((enforce_theme_limit MAX_THEMES dfC2 ctC2).2 =
        [(0, "A"), (1, "B"), (2, "C"), (3, "D"),
         (4, "Other Issues"), (5, "Other Issues"), (6, "Other Issues")] ∧
      distinct_all (enforce_theme_limit MAX_THEMES dfC2 ctC2).2 = MAX_THEMES ∧
      "Miscellaneous" ∉ (enforce_theme_limit MAX_THEMES dfC2 ctC2).2.map Prod.snd) := by
  refine ⟨fun M df ct _ => ⟨fun h => enforce_eq_of_le h, fun h => enforce_snd_of_lt h⟩,
    by decide, by decide, by decide⟩

theorem C2_merge_algorithm_witness :
    enforce_theme_limit MAX_THEMES dfW1 ctW1 = (dfW1, ctW1) :=
  ((C2_merge_algorithm.1 MAX_THEMES dfW1 ctW1 (by decide)).1) (by decide)

/-! ## Claim C3 -/

/-- C3, as stated, is false: with exactly `MAX_THEMES` ordinary theme
names the enforcer takes its no-op branch, leaving `MAX_THEMES` distinct
names that are neither the miscellaneous sentinel nor the catch-all — one
more than the claimed `MAX_THEMES − 1` bound. -/
theorem C3_counterexample :
    ¬ (distinct_ordinary (enforce_theme_limit MAX_THEMES dfC3 ctC3).2 ≤ MAX_THEMES - 1) := by
  decide

/-- C3 (amended): for any input the output mapping has at most `max_themes`
distinct non-miscellaneous names; the stricter `max_themes − 1` bound on
names other than the two sentinels holds whenever the merge branch actually
runs (distinct non-miscellaneous input count above the limit). -/
theorem C3_cardinality_bound (M : Nat) (df : List ThemedRow) (ct : List (Int × String))
    (hM : 1 ≤ M) :
    distinct_non_misc (enforce_theme_limit M df ct).2 ≤ M ∧
    (M < distinct_non_misc ct →
      distinct_ordinary (enforce_theme_limit M df ct).2 ≤ M - 1) := by
  refine ⟨enforce_snd_bound hM df ct, fun h => ?_⟩
  rw [show (enforce_theme_limit M df ct).2 = merge_themes M ct (get_theme_sizes df) by
    unfold enforce_theme_limit; rw [if_neg (not_le.mpr h)]]
  unfold distinct_ordinary
  have hsub : (((merge_themes M ct (get_theme_sizes df)).map Prod.snd).filter
      (fun t => t != "Miscellaneous" && t != "Other Issues")).toFinset ⊆
      (keep_set M (get_theme_sizes df)).toFinset := by
    intro t ht
    rw [List.mem_toFinset, List.mem_filter] at ht
    obtain ⟨hmem, hcond⟩ := ht
    have hc : t ≠ "Miscellaneous" ∧ t ≠ "Other Issues" := by
      simpa [Bool.and_eq_true] using hcond
    rcases mem_values_merge_themes hmem with hk | hm | ho
    · exact List.mem_toFinset.mpr hk
    · exact absurd hm hc.1
    · exact absurd ho hc.2
  calc (((merge_themes M ct (get_theme_sizes df)).map Prod.snd).filter
        (fun t => t != "Miscellaneous" && t != "Other Issues")).toFinset.card
      ≤ (keep_set M (get_theme_sizes df)).toFinset.card := Finset.card_le_card hsub
    _ ≤ (keep_set M (get_theme_sizes df)).length := List.toFinset_card_le _
    _ ≤ M - 1 := keep_set_length_le M _

theorem C3_cardinality_bound_witness :
    distinct_non_misc (enforce_theme_limit MAX_THEMES dfW3 ctW3).2 ≤ MAX_THEMES ∧
    distinct_ordinary (enforce_theme_limit MAX_THEMES dfW3 ctW3).2 ≤ MAX_THEMES - 1 :=
  ⟨(C3_cardinality_bound MAX_THEMES dfW3 ctW3 (by decide)).1,
   (C3_cardinality_bound MAX_THEMES dfW3 ctW3 (by decide)).2 (by decide)⟩

/-! ## Claim C7 -/

/-- C7: enforcement is idempotent — applying `enforce_theme_limit` to its
own output returns that output unchanged, because the output mapping always
satisfies the no-op branch's bound. -/
theorem C7_enforce_idempotent (M : Nat) (df : List ThemedRow) (ct : List (Int × String))
    (hM : 1 ≤ M) :
    enforce_theme_limit M (enforce_theme_limit M df ct).1 (enforce_theme_limit M df ct).2 =
      enforce_theme_limit M df ct := by
  rw [enforce_eq_of_le (enforce_snd_bound hM df ct)]

theorem C7_enforce_idempotent_witness :
    enforce_theme_limit MAX_THEMES
        (enforce_theme_limit MAX_THEMES dfW7 ctW7).1
        (enforce_theme_limit MAX_THEMES dfW7 ctW7).2 =
      enforce_theme_limit MAX_THEMES dfW7 ctW7 :=
  C7_enforce_idempotent MAX_THEMES dfW7 ctW7 (by decide)

/-! ## Lemmas about the theme labeler -/

/-- Every id the labeling loop visits is non-noise and occurs as a
`cluster_label` in the DataFrame. -/
theorem mem_nonNoiseIds {df : List ClusteredRow} {id : Int} (h : id ∈ nonNoiseIds df) :
    id ≠ -1 ∧ ∃ r ∈ df, r.cluster_label = id := by
  unfold nonNoiseIds at h
  have h1 := (List.perm_insertionSort (fun a b : Int => a ≤ b) _).mem_iff.mp h
  have h2 := mem_of_mem_dedupFirst h1
  rw [List.mem_map] at h2
  obtain ⟨r, hr, rfl⟩ := h2
  rw [List.mem_filter] at hr
  exact ⟨by simpa using hr.2, r, hr.1, rfl⟩

/-- Every non-noise observed cluster label is visited by the loop. -/
theorem mem_nonNoiseIds_of_label {df : List ClusteredRow} {id : Int}
    (h : id ∈ clusterLabels df) (hne : id ≠ -1) : id ∈ nonNoiseIds df := by
  unfold nonNoiseIds
  rw [(List.perm_insertionSort (fun a b : Int => a ≤ b) _).mem_iff]
  apply mem_dedupFirst_of_mem
  rw [clusterLabels, List.mem_map] at h
  obtain ⟨r, hr, rfl⟩ := h
  exact List.mem_map.mpr ⟨r, List.mem_filter.mpr ⟨hr, by simpa using hne⟩, rfl⟩

/-- The cluster→theme dict `label_all_clusters` returns. -/
theorem label_all_clusters_fst (df : List ClusteredRow) (n : Nat)
    (collab : String → Except String String) :
    (label_all_clusters df n collab).1 =
      (if (-1 : Int) ∈ clusterLabels df
       then ((nonNoiseIds df).map
          (fun id => (id, label_cluster (cluster_sample df id n) none collab))) ++
          [((-1 : Int), "Miscellaneous")]
       else (nonNoiseIds df).map
          (fun id => (id, label_cluster (cluster_sample df id n) none collab))) := by
  unfold label_all_clusters
  dsimp only
  rw [List.map_map]
  rfl

/-- The collaborator-call log `label_all_clusters` returns. -/
theorem label_all_clusters_snd (df : List ClusteredRow) (n : Nat)
    (collab : String → Except String String) :
    (label_all_clusters df n collab).2 =
      (nonNoiseIds df).map (fun id => (id, cluster_sample df id n)) := by
  unfold label_all_clusters
  dsimp only
  rw [List.map_map]
  rfl

/-- Every review text in a cluster sample is the content of a DataFrame row
of that cluster. -/
theorem mem_cluster_sample {df : List ClusteredRow} {id : Int} {n : Nat} {t : String}
    (h : t ∈ cluster_sample df id n) :
    ∃ r ∈ df, r.cluster_label = id ∧ r.content = t := by
  unfold cluster_sample at h
  rw [List.mem_map] at h
  obtain ⟨r, hr, rfl⟩ := h
  have h1 : r ∈ List.insertionSort probGE (df.filter (fun r => r.cluster_label == id)) :=
    (List.take_sublist _ _).subset hr
  have h2 := (List.perm_insertionSort probGE _).mem_iff.mp h1
  rw [List.mem_filter] at h2
  exact ⟨r, h2.1, by simpa using h2.2, rfl⟩

/-! ## Claim C4 -/

/-- C4: whenever the noise id `-1` occurs among the observed cluster
labels, the returned mapping sends it to the fixed `"Miscellaneous"`
sentinel; and every collaborator call the loop makes is for a non-noise
cluster id, with every sampled review text drawn from that (non-noise)
cluster's rows — so noise reviews are never passed to the collaborator. -/
theorem C4_noise_isolation (df : List ClusteredRow) (collab : String → Except String String) :
    ((-1 : Int) ∈ clusterLabels df →
      dict_get (-1 : Int) (label_all_clusters df 10 collab).1 = some "Miscellaneous") ∧
    (∀ pr ∈ (label_all_clusters df 10 collab).2,
      pr.1 ≠ -1 ∧ ∀ t ∈ pr.2, ∃ r ∈ df, r.cluster_label = pr.1 ∧ r.content = t) := by
  constructor
  · intro hn
    rw [label_all_clusters_fst, if_pos hn]
    rw [dict_get_append_of_not_mem_keys]
    · simp [dict_get]
    · intro hmem
      rw [List.map_map] at hmem
      have : (-1 : Int) ∈ nonNoiseIds df := by simpa using hmem
      exact (mem_nonNoiseIds this).1 rfl
  · intro pr hpr
    rw [label_all_clusters_snd] at hpr
    rw [List.mem_map] at hpr
    obtain ⟨id, hid, rfl⟩ := hpr
    exact ⟨(mem_nonNoiseIds hid).1, fun t ht => mem_cluster_sample ht⟩

def dfW4 : List ClusteredRow :=
  [⟨"it just closes randomly", -1, 0⟩, ⟨"app crashes on login", 0, 1⟩,
   ⟨"crash after update", 0, 1⟩]

def collabW4 : String → Except String String := fun _ => Except.ok "Crashes & Stability"

theorem C4_noise_isolation_witness :
    dict_get (-1 : Int) (label_all_clusters dfW4 10 collabW4).1 = some "Miscellaneous" :=
  (C4_noise_isolation dfW4 collabW4).1 (by decide)

/-! ## Claim C5 -/

/-- C5, as stated, is false in its naming of the fallback: when the
collaborator fails, `label_cluster` returns the fixed fallback
`"Uncategorized > General"`, which is not the label `"uncategorized"` the
claim names. -/
theorem C5_counterexample :
    label_cluster ["app keeps crashing"] none (fun _ => Except.error "timeout") =
        "Uncategorized > General" ∧
      "Uncategorized > General" ≠ "uncategorized" :=
  ⟨rfl, by decide⟩

/-- C5 (amended): if the collaborator call inside `label_cluster` fails
with any error, the error is not propagated and the fixed fallback label
`"Uncategorized > General"` is returned instead. -/
theorem C5_error_fallback (sample_reviews : List String)
    (suggested_categories : Option (List String)) (collab : String → Except String String)
    (e : String) (h : collab (label_prompt sample_reviews suggested_categories) = Except.error e) :
    label_cluster sample_reviews suggested_categories collab = "Uncategorized > General" := by
  unfold label_cluster
  rw [h]

theorem C5_error_fallback_witness :
    label_cluster ["too slow to load"] none (fun _ => Except.error "boom") =
      "Uncategorized > General" :=
  C5_error_fallback ["too slow to load"] none (fun _ => Except.error "boom") "boom" rfl

/-! ## Claim C9 -/

/-- C9: every collaborator call the labeling loop makes receives, for its
cluster, exactly the top `min 10 (cluster size)` member reviews by
membership strength: the sample splits the cluster's rows into a taken part
`hi` (whose contents are passed) and a rest `lo`, with every taken row's
`cluster_probability` at least every left-out row's. -/
theorem C9_cluster_sampling (df : List ClusteredRow) (collab : String → Except String String) :
    ∀ pr ∈ (label_all_clusters df 10 collab).2,
      ∃ hi lo : List ClusteredRow,
        (hi ++ lo).Perm (df.filter (fun r => r.cluster_label == pr.1)) ∧
        pr.2 = hi.map (·.content) ∧
        hi.length = min 10 (df.filter (fun r => r.cluster_label == pr.1)).length ∧
        ∀ x ∈ hi, ∀ y ∈ lo, y.cluster_probability ≤ x.cluster_probability := by
  intro pr hpr
  rw [label_all_clusters_snd] at hpr
  rw [List.mem_map] at hpr
  obtain ⟨id, hid, rfl⟩ := hpr
  refine ⟨(List.insertionSort probGE (df.filter (fun r => r.cluster_label == id))).take 10,
    (List.insertionSort probGE (df.filter (fun r => r.cluster_label == id))).drop 10,
    ?_, rfl, ?_, ?_⟩
  · rw [List.take_append_drop]
    exact List.perm_insertionSort _ _
  · rw [List.length_take, (List.perm_insertionSort probGE _).length_eq]
  · have hs : List.Pairwise probGE
        (List.insertionSort probGE (df.filter (fun r => r.cluster_label == id))) :=
      List.sorted_insertionSort probGE _
    rw [← List.take_append_drop 10
      (List.insertionSort probGE (df.filter (fun r => r.cluster_label == id)))] at hs
    exact fun x hx y hy => (List.pairwise_append.mp hs).2.2 x hx y hy

def dfW9 : List ClusteredRow :=
  [⟨"slow loading", 0, 0⟩, ⟨"crashes daily", 0, 1⟩, ⟨"unrelated rant", -1, 0⟩]

def collabW9 : String → Except String String := fun _ => Except.ok "App Performance"

theorem C9_cluster_sampling_witness :
    ∃ hi lo : List ClusteredRow,
      (hi ++ lo).Perm (dfW9.filter (fun r => r.cluster_label == (0 : Int))) ∧
      (["crashes daily", "slow loading"] : List String) = hi.map (·.content) ∧
      hi.length = min 10 (dfW9.filter (fun r => r.cluster_label == (0 : Int))).length ∧
      ∀ x ∈ hi, ∀ y ∈ lo, y.cluster_probability ≤ x.cluster_probability :=
  C9_cluster_sampling dfW9 collabW9 (0, ["crashes daily", "slow loading"]) (by decide)

/-! ## Lemmas for the pipeline totality claim -/

/-- Forgetting the clustering columns of a clustered row. -/
def clusteredToReview (r : ClusteredRow) : ReviewRow := ⟨r.content⟩

/-- Forgetting the theme column of a themed row. -/
def themedToClustered (r : ThemedRow) : ClusteredRow :=
  ⟨r.content, r.cluster_label, r.cluster_probability⟩

/-- `assign_to_dataframe` with matching lengths keeps the rows (in order)
and gives row `i` exactly `labels[i]` and `probs[i]`. -/
theorem assign_to_dataframe_spec (df0 : List ReviewRow) (labels : List Int) (probs : List ℚ)
    (hl : labels.length = df0.length) (hp : probs.length = df0.length) :
    (assign_to_dataframe df0 labels probs).map clusteredToReview = df0 ∧
    (assign_to_dataframe df0 labels probs).map (·.cluster_label) = labels ∧
    (assign_to_dataframe df0 labels probs).map (·.cluster_probability) = probs := by
  induction df0 generalizing labels probs with
  | nil =>
      obtain rfl : labels = [] := List.length_eq_zero.mp hl
      obtain rfl : probs = [] := List.length_eq_zero.mp hp
      exact ⟨rfl, rfl, rfl⟩
  | cons r rest ih =>
      cases labels with
      | nil => simp at hl
      | cons lb ls =>
          cases probs with
          | nil => simp at hp
          | cons p ps =>
              obtain ⟨h1, h2, h3⟩ := ih ls ps (by simpa using hl) (by simpa using hp)
              have hcons : assign_to_dataframe (r :: rest) (lb :: ls) (p :: ps) =
                  ⟨r.content, lb, p⟩ :: assign_to_dataframe rest ls ps := rfl
              rw [hcons]
              refine ⟨?_, ?_, ?_⟩
              · simp only [List.map_cons]
                rw [h1]
                rfl
              · simp only [List.map_cons]
                rw [h2]
              · simp only [List.map_cons]
                rw [h3]

/-- Every observed cluster label is a key of the dict returned by
`label_all_clusters`: non-noise labels through the labeling loop, the
noise label through the final `"Miscellaneous"` entry. -/
theorem label_covers (df : List ClusteredRow) (n : Nat)
    (collab : String → Except String String) :
    ∀ lab ∈ clusterLabels df, lab ∈ (label_all_clusters df n collab).1.map Prod.fst := by
  intro lab hlab
  rw [label_all_clusters_fst]
  by_cases hne : lab = -1
  · subst hne
    rw [if_pos hlab, List.map_append]
    exact List.mem_append_right _ (by simp)
  · have hid := mem_nonNoiseIds_of_label hlab hne
    have hbase : lab ∈ ((nonNoiseIds df).map
        (fun id => (id, label_cluster (cluster_sample df id n) none collab))).map Prod.fst := by
      rw [List.map_map]
      simpa using hid
    by_cases hn : (-1 : Int) ∈ clusterLabels df
    · rw [if_pos hn, List.map_append]
      exact List.mem_append_left _ hbase
    · rw [if_neg hn]
      exact hbase

/-- `_merge_themes` preserves the cluster-id key set of the mapping. -/
theorem merge_themes_keys (M : Nat) (ct : List (Int × String))
    (sizes : List (String × Nat)) :
    (merge_themes M ct sizes).map Prod.fst = ct.map Prod.fst := by
  unfold merge_themes
  dsimp only
  rw [List.map_map]
  apply List.map_congr_left
  intro p _
  dsimp [Function.comp]
  split <;> rfl

/-- Assigning themes keeps the underlying clustered rows unchanged. -/
theorem assign_themes_proj (df1 : List ClusteredRow) (ct : List (Int × String)) :
    (assign_themes_to_dataframe df1 ct).map themedToClustered = df1 := by
  unfold assign_themes_to_dataframe
  rw [List.map_map]
  exact List.map_id df1

/-- Rewriting the theme column keeps the underlying clustered rows unchanged. -/
theorem update_themes_proj (df : List ThemedRow) (m : List (Int × String)) :
    (update_dataframe_themes df m).map themedToClustered = df.map themedToClustered := by
  unfold update_dataframe_themes
  rw [List.map_map]
  rfl

theorem mem_clusterLabels_of_mem_assign {df1 : List ClusteredRow} {ct : List (Int × String)} :
    ∀ r ∈ assign_themes_to_dataframe df1 ct, r.cluster_label ∈ clusterLabels df1 := by
  intro r hr
  unfold assign_themes_to_dataframe at hr
  rw [List.mem_map] at hr
  obtain ⟨r1, hr1, rfl⟩ := hr
  exact List.mem_map.mpr ⟨r1, hr1, rfl⟩

/-- If the mapping covers all observed labels, every row assigned a theme
gets an actual (non-`NaN`) theme name. -/
theorem assign_themes_total {df1 : List ClusteredRow} {ct : List (Int × String)}
    (hcov : ∀ lab ∈ clusterLabels df1, lab ∈ ct.map Prod.fst) :
    ∀ r ∈ assign_themes_to_dataframe df1 ct, ∃ t, r.theme_name = some t := by
  intro r hr
  unfold assign_themes_to_dataframe at hr
  rw [List.mem_map] at hr
  obtain ⟨r1, hr1, rfl⟩ := hr
  exact Option.isSome_iff_exists.mp
    (dict_get_isSome_of_mem_keys (hcov r1.cluster_label (List.mem_map.mpr ⟨r1, hr1, rfl⟩)))

/-- If the mapping covers all row labels, the rewritten theme column has no
`NaN` entries. -/
theorem update_themes_total {df : List ThemedRow} {merged : List (Int × String)}
    (hcov : ∀ r ∈ df, r.cluster_label ∈ merged.map Prod.fst) :
    ∀ r ∈ update_dataframe_themes df merged, ∃ t, r.theme_name = some t := by
  intro r hr
  unfold update_dataframe_themes at hr
  rw [List.mem_map] at hr
  obtain ⟨r0, hr0, rfl⟩ := hr
  exact Option.isSome_iff_exists.mp (dict_get_isSome_of_mem_keys (hcov r0 hr0))

/-! ## The Layer-2 stage composition of `ReviewAnalyzerPipeline.run_layer2` -/

/-- Step 3 of `run_layer2`: the cluster→theme dict built from the clustered
DataFrame. -/
def run_layer2_themes (df0 : List ReviewRow) (labels : List Int) (probs : List ℚ)
    (collab : String → Except String String) : List (Int × String) :=
  (label_all_clusters (assign_to_dataframe df0 labels probs) 10 collab).1

/-- Step 3 of `run_layer2`: the themed DataFrame
(`labeler.assign_themes_to_dataframe(df_clustered, cluster_themes)`). -/
def run_layer2_themed (df0 : List ReviewRow) (labels : List Int) (probs : List ℚ)
    (collab : String → Except String String) : List ThemedRow :=
  assign_themes_to_dataframe (assign_to_dataframe df0 labels probs)
    (run_layer2_themes df0 labels probs collab)

/-- Step 4 of `run_layer2`:
`enforcer.enforce_theme_limit(df_themed, cluster_themes)`. -/
def run_layer2_final (M : Nat) (df0 : List ReviewRow) (labels : List Int) (probs : List ℚ)
    (collab : String → Except String String) : List ThemedRow × List (Int × String) :=
  enforce_theme_limit M (run_layer2_themed df0 labels probs collab)
    (run_layer2_themes df0 labels probs collab)

theorem run_layer2_themed_total (df0 : List ReviewRow) (labels : List Int) (probs : List ℚ)
    (collab : String → Except String String) :
    ∀ r ∈ run_layer2_themed df0 labels probs collab, ∃ t, r.theme_name = some t := by
  unfold run_layer2_themed run_layer2_themes
  exact assign_themes_total (fun lab h => label_covers _ 10 collab lab h)

/-! ## Claim C6 -/

/-- C6: with label/probability arrays matching the row count (pandas raises
otherwise), clustering assignment gives every row exactly one
`cluster_label` and one `cluster_probability` while keeping the review rows
unchanged; theme assignment gives every row exactly one (non-`NaN`)
`theme_name` while keeping the clustered rows unchanged; and enforcement
keeps the clustered rows unchanged and every row's theme defined — no row
is added or dropped at any step. -/
theorem C6_totality (df0 : List ReviewRow) (labels : List Int) (probs : List ℚ)
    (collab : String → Except String String) (M : Nat)
    (hl : labels.length = df0.length) (hp : probs.length = df0.length) :
    ((assign_to_dataframe df0 labels probs).map clusteredToReview = df0 ∧
     (assign_to_dataframe df0 labels probs).map (·.cluster_label) = labels ∧
     (assign_to_dataframe df0 labels probs).map (·.cluster_probability) = probs) ∧
    ((run_layer2_themed df0 labels probs collab).map themedToClustered =
        assign_to_dataframe df0 labels probs ∧
     ∀ r ∈ run_layer2_themed df0 labels probs collab, ∃ t, r.theme_name = some t) ∧
    ((run_layer2_final M df0 labels probs collab).1.map themedToClustered =
        (run_layer2_themed df0 labels probs collab).map themedToClustered ∧
     ∀ r ∈ (run_layer2_final M df0 labels probs collab).1, ∃ t, r.theme_name = some t) := by
  refine ⟨assign_to_dataframe_spec df0 labels probs hl hp,
    ⟨?_, run_layer2_themed_total df0 labels probs collab⟩, ?_, ?_⟩
  · unfold run_layer2_themed
    exact assign_themes_proj _ _
  · unfold run_layer2_final
    by_cases h : distinct_non_misc (run_layer2_themes df0 labels probs collab) ≤ M
    · rw [enforce_eq_of_le h]
    · have hmerge : (enforce_theme_limit M (run_layer2_themed df0 labels probs collab)
          (run_layer2_themes df0 labels probs collab)).1 =
          update_dataframe_themes (run_layer2_themed df0 labels probs collab)
            (merge_themes M (run_layer2_themes df0 labels probs collab)
              (get_theme_sizes (run_layer2_themed df0 labels probs collab))) := by
        unfold enforce_theme_limit
        rw [if_neg h]
      rw [hmerge]
      exact update_themes_proj _ _
  · unfold run_layer2_final
    by_cases h : distinct_non_misc (run_layer2_themes df0 labels probs collab) ≤ M
    · rw [enforce_eq_of_le h]
      exact run_layer2_themed_total df0 labels probs collab
    · have hmerge : (enforce_theme_limit M (run_layer2_themed df0 labels probs collab)
          (run_layer2_themes df0 labels probs collab)).1 =
          update_dataframe_themes (run_layer2_themed df0 labels probs collab)
            (merge_themes M (run_layer2_themes df0 labels probs collab)
              (get_theme_sizes (run_layer2_themed df0 labels probs collab))) := by
        unfold enforce_theme_limit
        rw [if_neg h]
      rw [hmerge]
      apply update_themes_total
      intro r hr
      rw [merge_themes_keys]
      exact label_covers _ 10 collab r.cluster_label
        (mem_clusterLabels_of_mem_assign r (by exact hr))

def dfW6 : List ReviewRow := [⟨"love the interface"⟩, ⟨"crashes on payment"⟩, ⟨"meh"⟩]

def labelsW6 : List Int := [0, 0, -1]

def probsW6 : List ℚ := [1, 1, 0]

def collabW6 : String → Except String String := fun _ => Except.ok "Payments"

theorem C6_totality_witness :
    ((assign_to_dataframe dfW6 labelsW6 probsW6).map clusteredToReview = dfW6 ∧
     (assign_to_dataframe dfW6 labelsW6 probsW6).map (·.cluster_label) = labelsW6 ∧
     (assign_to_dataframe dfW6 labelsW6 probsW6).map (·.cluster_probability) = probsW6) ∧
    ((run_layer2_themed dfW6 labelsW6 probsW6 collabW6).map themedToClustered =
        assign_to_dataframe dfW6 labelsW6 probsW6 ∧
     ∀ r ∈ run_layer2_themed dfW6 labelsW6 probsW6 collabW6, ∃ t, r.theme_name = some t) ∧
    ((run_layer2_final MAX_THEMES dfW6 labelsW6 probsW6 collabW6).1.map themedToClustered =
        (run_layer2_themed dfW6 labelsW6 probsW6 collabW6).map themedToClustered ∧
     ∀ r ∈ (run_layer2_final MAX_THEMES dfW6 labelsW6 probsW6 collabW6).1,
       ∃ t, r.theme_name = some t) :=
  C6_totality dfW6 labelsW6 probsW6 collabW6 MAX_THEMES rfl rfl

/-! ## Claim C8 -/

/-- A stand-in encoder assigning every text the same one-dimensional
vector. -/
def constEncoder : List String → List (List ℚ) := fun ts => ts.map (fun _ => [0])

/-- C8, as stated, is false: `generate_embeddings` contains no input
validation and no raise of any kind (the repository defines no
`MalformedInputError`), so an input with an empty and a whitespace-only
text produces embeddings normally instead of failing fast. -/
theorem C8_counterexample :
    generate_embeddings constEncoder ["", "   "] = Except.ok [[0], [0]] := rfl

/-- C8 (amended): `generate_embeddings` performs no input validation: even
when the input contains an empty or whitespace-only text it succeeds with
exactly the external encoder's output, and for a length-preserving encoder
it returns one embedding per input text. -/
theorem C8_no_validation (encode : List String → List (List ℚ)) (texts : List String)
    (_hws : ∃ t ∈ texts, t.data.all Char.isWhitespace = true) :
    generate_embeddings encode texts = Except.ok (encode texts) ∧
    ((∀ ts, (encode ts).length = ts.length) →
      ∃ out, generate_embeddings encode texts = Except.ok out ∧
        out.length = texts.length) :=
  ⟨rfl, fun hlen => ⟨encode texts, rfl, hlen texts⟩⟩

theorem C8_no_validation_witness :
    generate_embeddings constEncoder ["", "great app"] =
        Except.ok (constEncoder ["", "great app"]) ∧
    ((∀ ts, (constEncoder ts).length = ts.length) →
      ∃ out, generate_embeddings constEncoder ["", "great app"] = Except.ok out ∧
        out.length = (["", "great app"] : List String).length) :=
  C8_no_validation constEncoder ["", "great app"] (by decide)

/-! ## Claim C10 -/

theorem zip_self_map (l : List α) (f : α → β) :
    l.zip (l.map f) = l.map (fun a => (a, f a)) := by
  induction l with
  | nil => rfl
  | cons a l ih => rw [List.map_cons, List.zip_cons_cons, ih, List.map_cons]

/-- The distinct ordinary theme names (neither sentinel) that survive
enforcement with their original label, read off pair-wise from the input
mapping and the output mapping. -/
def retained_ordinary (ct merged : List (Int × String)) : Finset String :=
  (((ct.zip merged).filter (fun q =>
      q.1.2 == q.2.2 && q.1.2 != "Miscellaneous" && q.1.2 != "Other Issues")).map
    (fun q => q.1.2)).toFinset

/-- C10: the keep-set is computed from `value_counts` over the whole
`theme_name` column, miscellaneous rows included; so when merging occurs
and `"Miscellaneous"` ranks inside the top `max_themes − 1` by review
count, it occupies a keep slot: at most `max_themes − 2` ordinary theme
names keep their original labels, and every theme outside the keep-set
other than the sentinel is remapped to `"Other Issues"`. -/
theorem C10_misc_keep_slot (M : Nat) (df : List ThemedRow) (ct : List (Int × String))
    (hgt : M < distinct_non_misc ct)
    (hmisc : "Miscellaneous" ∈ keep_set M (get_theme_sizes df)) :
    (retained_ordinary ct (enforce_theme_limit M df ct).2).card ≤ M - 2 ∧
    (∀ q ∈ ct.zip (enforce_theme_limit M df ct).2,
      q.1.2 ∉ keep_set M (get_theme_sizes df) → q.1.2 ≠ "Miscellaneous" →
        q.2.2 = "Other Issues") := by
  rw [enforce_snd_of_lt hgt]
  rw [zip_self_map]
  constructor
  · unfold retained_ordinary
    rw [zip_self_map]
    have hsub : ((((ct.map (fun p => (p,
        if p.2 ∈ keep_set M (get_theme_sizes df) ∨ p.2 = "Miscellaneous" then p
        else (p.1, "Other Issues")))).filter (fun q =>
          q.1.2 == q.2.2 && q.1.2 != "Miscellaneous" && q.1.2 != "Other Issues")).map
        (fun q => q.1.2)).toFinset) ⊆
        (keep_set M (get_theme_sizes df)).toFinset.erase "Miscellaneous" := by
      intro t ht
      rw [List.mem_toFinset, List.mem_map] at ht
      obtain ⟨q, hq, rfl⟩ := ht
      rw [List.mem_filter] at hq
      obtain ⟨hqmem, hcond⟩ := hq
      rw [List.mem_map] at hqmem
      obtain ⟨p, _, rfl⟩ := hqmem
      simp only [Bool.and_eq_true, beq_iff_eq, bne_iff_ne] at hcond
      obtain ⟨⟨heq, hnm⟩, hno⟩ := hcond
      refine Finset.mem_erase.mpr ⟨hnm, List.mem_toFinset.mpr ?_⟩
      by_cases hkeep : p.2 ∈ keep_set M (get_theme_sizes df) ∨ p.2 = "Miscellaneous"
      · exact hkeep.resolve_right hnm
      · rw [if_neg hkeep] at heq
        exact absurd heq hno
    calc _ ≤ ((keep_set M (get_theme_sizes df)).toFinset.erase "Miscellaneous").card :=
          Finset.card_le_card hsub
      _ = (keep_set M (get_theme_sizes df)).toFinset.card - 1 :=
          Finset.card_erase_of_mem (List.mem_toFinset.mpr hmisc)
      _ ≤ (keep_set M (get_theme_sizes df)).length - 1 :=
          Nat.sub_le_sub_right (List.toFinset_card_le _) 1
      _ ≤ (M - 1) - 1 := Nat.sub_le_sub_right (keep_set_length_le M _) 1
      _ ≤ M - 2 := by omega
  · intro q hq hnk hnm
    rw [List.mem_map] at hq
    obtain ⟨p, _, rfl⟩ := hq
    show (if p.2 ∈ keep_set M (get_theme_sizes df) ∨ p.2 = "Miscellaneous" then p
      else (p.1, "Other Issues")).2 = "Other Issues"
    rw [if_neg (not_or.mpr ⟨hnk, hnm⟩)]

def dfW10 : List ThemedRow :=
  mkThemedRows 9 (-1) "Miscellaneous" ++ mkThemedRows 4 0 "A" ++ mkThemedRows 3 1 "B" ++
  mkThemedRows 2 2 "C" ++ mkThemedRows 1 3 "D"

def ctW10 : List (Int × String) :=
  [(-1, "Miscellaneous"), (0, "A"), (1, "B"), (2, "C"), (3, "D")]

theorem C10_misc_keep_slot_witness :
    (retained_ordinary ctW10 (enforce_theme_limit 3 dfW10 ctW10).2).card ≤ 3 - 2 ∧
    (∀ q ∈ ctW10.zip (enforce_theme_limit 3 dfW10 ctW10).2,
      q.1.2 ∉ keep_set 3 (get_theme_sizes dfW10) → q.1.2 ≠ "Miscellaneous" →
        q.2.2 = "Other Issues") :=
  C10_misc_keep_slot 3 dfW10 ctW10 (by decide) (by decide)
